import Mathlib

/-!
# converge: the `apply` command and the template resource

A shallow embedding of `cmd/apply.go` (the `Run` function of `applyCmd`) and of the
`resource/template` task exercised by `resource/template/template_test.go`.

* The `apply` command is effectful: it calls `load.Load`, `exec.Plan` and `exec.Apply`,
  prints, and may end the process.  It is embedded as a function from an explicit world
  state to a trace of events, an outcome and the final world state.  The three
  collaborators and the colour setting are parameters (`Env`).
* Go's `int` is modelled as `Int` with an explicit wrap to 64 bits on every increment.
-/

namespace Converge

/-! ## Data model of the apply command -/

/-- Modelled from the spec: the `exec.Result` type declaration, which the apply command
uses but which is not part of the sources at hand ("node identity, success flag, optional
error, a human-readable description of the outcome").  The apply command reads only
`Success` and hands the whole value to the printer. -/
structure Result where
  Path : String
  Success : Bool
  Err : Option String
  Description : String
deriving DecidableEq, Repr

/-- Go `int` on a 64-bit platform: the value of `x` wrapped into `[-2^63, 2^63)`. -/
def wrapInt (x : Int) : Int := (x + 2 ^ 63) % 2 ^ 64 - 2 ^ 63

/-- The Go statement `x++` on an `int`. -/
def incr (x : Int) : Int := wrapInt (x + 1)

/-- The anonymous struct of `var counts struct { results, success, failures int }`. -/
structure Counts where
  results : Int
  success : Int
  failures : Int
deriving DecidableEq, Repr

/-- The decoration put on the summary: none, `skittles.Red` or `skittles.Green`. -/
inductive Style where
  | plain
  | red
  | green
deriving DecidableEq, Repr

/-- What the apply command does that can be observed, in order.  `callLoad`, `callPlan` and
`callApply` record the calls of `load.Load`, `exec.Plan` and `exec.Apply` made for a module;
`printResult true r` is `fmt.Println(result.Pretty())`, `printResult false r` is
`fmt.Println(result)`; `printSummary st c` is `fmt.Print(summary)` for the summary built
from `c` and decorated by `st`; `logFatal m` is the message of `log.Fatalf`. -/
inductive Event where
  | logInfo (fname : String)
  | callLoad (fname : String)
  | callPlan (fname : String)
  | callApply (fname : String)
  | printResult (pretty : Bool) (r : Result)
  | printSummary (st : Style) (c : Counts)
  | logFatal (msg : String)
deriving DecidableEq, Repr

/-- How an execution of `Run` ends: it returns to its caller, or the process is ended by
`os.Exit(code)` (directly, or inside `log.Fatalf`, which exits with 1). -/
inductive Outcome where
  | returned
  | exited (code : Nat)
deriving DecidableEq, Repr

/-- Modelled from the spec: the caller of `Run` (the command dispatcher and `main`, which
are not part of the sources at hand).  The process exit code of an outcome: an exit inside
`Run` gives its code; a `Run` that returns lets the program end normally, which is exit
code 0 ("exit code 0 when failures == 0 across all modules processed"). -/
def exitCode : Outcome → Nat
  | .returned => 0
  | .exited code => code

/-- The collaborators of the apply command, as functions of a world state `σ`:
`UseColor` is the colour setting read by `UseColor()`, `Load` is `load.Load(fname, params)`,
`Plan` is `exec.Plan(ctx, graph)` and `Apply` is `exec.Apply(ctx, graph, plan)`.  Each call
returns a value or an error (its message) together with the world it leaves behind. -/
structure Env (σ G P : Type) where
  UseColor : Bool
  Load : String → σ → Except String G × σ
  Plan : G → σ → Except String P × σ
  Apply : G → P → σ → Except String (List Result) × σ

/-- What an execution produced: the events in order, how it ended, and the final world. -/
structure RunResult (σ : Type) where
  trace : List Event
  outcome : Outcome
  state : σ

/-- The text of `fmt.Sprintf("\nApply complete. %d changes, %d successful, %d failed\n", ...)`. -/
def summaryText (c : Counts) : String :=
  "\nApply complete. " ++ toString c.results ++ " changes, " ++ toString c.success
    ++ " successful, " ++ toString c.failures ++ " failed\n"

/-! ## The apply command -/

/-- One pass of the body of `for _, result := range results` (apply.go lines 74-87): the
counters after the pass; the printing of the pass is `printResult`. -/
def countResult (c : Counts) (result : Result) : Counts :=
  let c1 : Counts := { c with results := incr c.results }
  if result.Success then { c1 with success := incr c1.success }
  else { c1 with failures := incr c1.failures }

/-- The loop `for _, result := range results` (apply.go lines 74-87), started with the
counters `c`: the final counters and the lines printed, one per pass. -/
def resultLoop (useColor : Bool) : List Result → Counts → Counts × List Event
  | [], c => (c, [])
  | result :: rest, c =>
    let c2 := countResult c result
    let ev := if useColor then Event.printResult true result else Event.printResult false result
    let out := resultLoop useColor rest c2
    (out.1, ev :: out.2)

/-- The decoration of the summary (apply.go lines 91-97). -/
def summaryStyle (useColor : Bool) (c : Counts) : Style :=
  if useColor then (if c.failures > 0 then Style.red else Style.green) else Style.plain

/-- The body of `for _, fname := range args` (apply.go lines 52-102) for one module. -/
def runModule {σ G P : Type} (env : Env σ G P) (fname : String) (s : σ) : RunResult σ :=
  match env.Load fname s with
  | (.error err, s1) =>
    ⟨[.logInfo fname, .callLoad fname,
        .logFatal ("[FATAL] " ++ fname ++ ": could not parse file: " ++ err ++ "\n")],
      .exited 1, s1⟩
  | (.ok graph, s1) =>
    match env.Plan graph s1 with
    | (.error err, s2) =>
      ⟨[.logInfo fname, .callLoad fname, .callPlan fname,
          .logFatal ("[FATAL] " ++ fname ++ ": planning failed: " ++ err ++ "\n")], .exited 1, s2⟩
    | (.ok plan, s2) =>
      match env.Apply graph plan s2 with
      | (.error err, s3) =>
        ⟨[.logInfo fname, .callLoad fname, .callPlan fname, .callApply fname,
            .logFatal ("[FATAL] " ++ fname ++ ": applying failed: " ++ err ++ "\n")], .exited 1, s3⟩
      | (.ok results, s3) =>
        let out := resultLoop env.UseColor results ⟨0, 0, 0⟩
        let counts := out.1
        ⟨[.logInfo fname, .callLoad fname, .callPlan fname, .callApply fname] ++ out.2
            ++ [.printSummary (summaryStyle env.UseColor counts) counts],
          if counts.failures > 0 then .exited 1 else .returned, s3⟩

/-- The `Run` function of `applyCmd` (apply.go lines 43-104): the modules of `args` are
processed in order; an exit inside a module ends everything. -/
def Run {σ G P : Type} (env : Env σ G P) : List String → σ → RunResult σ
  | [], s => ⟨[], .returned, s⟩
  | fname :: rest, s =>
    let r := runModule env fname s
    match r.outcome with
    | .exited code => ⟨r.trace, .exited code, r.state⟩
    | .returned =>
      let r2 := Run env rest r.state
      ⟨r.trace ++ r2.trace, r2.outcome, r2.state⟩

/-- Whether an event is the message of a `log.Fatalf`. -/
def Event.isFatal : Event → Bool
  | .logFatal _ => true
  | _ => false

/-! ## A small concrete world, for evaluation -/

/-- An example result. -/
def exResult (path : String) (ok : Bool) : Result :=
  ⟨path, ok, if ok then none else some "failed", path⟩

/-- An example environment over a world that counts the `exec.Apply` calls made: the module
`"bad"` does not load, `"noplan"` does not plan, `"mixed"` applies with one failed result
out of three, every other module applies with two successful results. -/
def exEnv (useColor : Bool) : Env Nat String String where
  UseColor := useColor
  Load := fun fname s => if fname = "bad" then (.error "no such file", s) else (.ok fname, s)
  Plan := fun g s => if g = "noplan" then (.error "cycle", s) else (.ok g, s)
  Apply := fun g _ s =>
    if g = "mixed" then
      (.ok [exResult "a" true, exResult "b" false, exResult "c" true], s + 1)
    else (.ok [exResult "a" true, exResult "b" true], s + 1)

/-! ## The template resource

`resource/template/template.go` is not part of the sources at hand; only its test file is.
The task is modelled from the specification of the task capability and from the scenarios
of the tests, over a file system that maps a path to what it holds. -/

/-- Modelled from the spec: what the file system holds at a path, as far as the template
task can tell: nothing, a directory, or a regular file with its content, its permission
bits (`Mode().Perm()`) and whether the process may write to it. -/
inductive Node where
  | absent
  | dir
  | file (content : String) (perm : Nat) (writable : Bool)
deriving DecidableEq, Repr

/-- The file system: what each path holds. -/
abbrev FS := String → Node

/-- The file system after the node at `path` is replaced by `n`. -/
def FS.put (fs : FS) (path : String) (n : Node) : FS :=
  fun p => if p = path then n else fs p

/-- The permission bits of a regular file. -/
def Node.perm? : Node → Option Nat
  | .file _ perm _ => some perm
  | _ => none

/-- The content of a regular file. -/
def Node.content? : Node → Option String
  | .file content _ _ => some content
  | _ => none

/-- The fields of `template.Template` set by the tests (template_test.go lines 40-43). -/
structure Template where
  Destination : String
  Content : String
deriving DecidableEq, Repr

/-- Modelled from the spec: `Template.Check`, whose source file is missing.  A read-only
probe returning the current state, whether a change is needed, and an error: an absent
destination is state `""` that will change; a directory is state `""` that will change,
with the error `cannot template %q, is a directory`; a regular file is its content, which
will change exactly when it differs from the desired content.  `quote` is Go's `%q`. -/
def Template.Check (quote : String → String) (t : Template) (fs : FS) :
    String × Bool × Option String :=
  match fs t.Destination with
  | .absent => ("", true, none)
  | .dir => ("", true, some ("cannot template " ++ quote t.Destination ++ ", is a directory"))
  | .file content _ _ => (content, decide (content ≠ t.Content), none)

/-- Modelled from the spec: `Template.Apply`, whose source file is missing.  It writes the
desired content to the destination and returns an error or none, with the file system it
leaves: an absent destination is created with the permission bits 0600; an existing
writable file keeps its permission bits; a file that may not be written and a directory
are left as they are, with an error. -/
def Template.Apply (t : Template) (fs : FS) : Option String × FS :=
  match fs t.Destination with
  | .absent => (none, fs.put t.Destination (.file t.Content 0o600 true))
  | .file _ perm true => (none, fs.put t.Destination (.file t.Content perm true))
  | .file _ _ false => (some ("open " ++ t.Destination ++ ": permission denied"), fs)
  | .dir => (some ("open " ++ t.Destination ++ ": is a directory"), fs)

/-- Go's `%q` on a string of printable ASCII characters other than the double quote and
the backslash: the string between double quotes. -/
def quotePlain (s : String) : String := "\"" ++ s ++ "\""

/-- An example file system: a directory, an empty file, a file with content and mode 0777,
a file that may not be written; every other path is absent. -/
def exFS : FS := fun p =>
  if p = "/tmp/dir" then .dir
  else if p = "/tmp/empty" then .file "" 0o600 true
  else if p = "/tmp/good" then .file "this is a test" 0o777 true
  else if p = "/tmp/locked" then .file "x" 0o400 false
  else .absent

/-! ## Facts about the counting loop -/

theorem incr_of_small (x : Int) (h0 : 0 ≤ x) (h1 : x + 1 < 2 ^ 63) : incr x = x + 1 := by
  unfold incr wrapInt
  omega

/-- The lines printed by the loop: one per result, in order, in the form chosen by the
colour setting; they do not depend on the counters. -/
theorem resultLoop_events (useColor : Bool) (results : List Result) (c : Counts) :
    (resultLoop useColor results c).2 = results.map (Event.printResult useColor) := by
  induction results generalizing c with
  | nil => rfl
  | cons r rest ih =>
    simp only [resultLoop, List.map_cons, ih]
    cases useColor <;> simp

/-- The counters after the loop, started from counters that are in range. -/
theorem resultLoop_counts (useColor : Bool) (results : List Result) (c : Counts)
    (hs : 0 ≤ c.success) (hf : 0 ≤ c.failures)
    (hsr : c.success ≤ c.results) (hfr : c.failures ≤ c.results)
    (hlen : c.results + (results.length : Int) < 2 ^ 63) :
    (resultLoop useColor results c).1 =
      ⟨c.results + (results.length : Int),
        c.success + ((results.countP (fun r => r.Success) : Nat) : Int),
        c.failures + ((results.countP (fun r => !r.Success) : Nat) : Int)⟩ := by
  induction results generalizing c with
  | nil => simp [resultLoop]
  | cons r rest ih =>
    have hl : ((r :: rest).length : Int) = (rest.length : Int) + 1 := by simp
    rw [hl] at hlen
    have hr : incr c.results = c.results + 1 := incr_of_small _ (by omega) (by omega)
    simp only [resultLoop]
    cases hsucc : r.Success with
    | true =>
      have hi : incr c.success = c.success + 1 := incr_of_small _ hs (by omega)
      have hc : countResult c r = ⟨c.results + 1, c.success + 1, c.failures⟩ := by
        simp [countResult, hsucc, hr, hi]
      rw [hc, ih _ (by simp; omega) (by simpa using hf) (by simp; omega) (by simp; omega)
        (by simp; omega)]
      simp [List.countP_cons, hsucc]
      omega
    | false =>
      have hi : incr c.failures = c.failures + 1 := incr_of_small _ hf (by omega)
      have hc : countResult c r = ⟨c.results + 1, c.success, c.failures + 1⟩ := by
        simp [countResult, hsucc, hr, hi]
      rw [hc, ih _ (by simpa using hs) (by simp; omega) (by simp; omega) (by simp; omega)
        (by simp; omega)]
      simp [List.countP_cons, hsucc]
      omega

theorem countP_success_add_failure (results : List Result) :
    results.countP (fun r => r.Success) + results.countP (fun r => !r.Success)
      = results.length := by
  induction results with
  | nil => rfl
  | cons r rest ih =>
    cases h : r.Success <;> simp [List.countP_cons, h] <;> omega

/-! ## Facts about `runModule` and `Run` -/

theorem runModule_load_error {σ G P : Type} (env : Env σ G P) (fname : String) (s s1 : σ)
    (err : String) (h : env.Load fname s = (.error err, s1)) :
    runModule env fname s =
      ⟨[.logInfo fname, .callLoad fname,
          .logFatal ("[FATAL] " ++ fname ++ ": could not parse file: " ++ err ++ "\n")],
        .exited 1, s1⟩ := by
  simp [runModule, h]

theorem runModule_plan_error {σ G P : Type} (env : Env σ G P) (fname : String) (s s1 s2 : σ)
    (graph : G) (err : String) (hl : env.Load fname s = (.ok graph, s1))
    (hp : env.Plan graph s1 = (.error err, s2)) :
    runModule env fname s =
      ⟨[.logInfo fname, .callLoad fname, .callPlan fname,
          .logFatal ("[FATAL] " ++ fname ++ ": planning failed: " ++ err ++ "\n")],
        .exited 1, s2⟩ := by
  simp [runModule, hl, hp]

theorem runModule_applied {σ G P : Type} (env : Env σ G P) (fname : String) (s s1 s2 s3 : σ)
    (graph : G) (plan : P) (results : List Result)
    (hl : env.Load fname s = (.ok graph, s1)) (hp : env.Plan graph s1 = (.ok plan, s2))
    (ha : env.Apply graph plan s2 = (.ok results, s3)) :
    runModule env fname s =
      ⟨[.logInfo fname, .callLoad fname, .callPlan fname, .callApply fname]
          ++ results.map (Event.printResult env.UseColor)
          ++ [.printSummary
                (summaryStyle env.UseColor (resultLoop env.UseColor results ⟨0, 0, 0⟩).1)
                (resultLoop env.UseColor results ⟨0, 0, 0⟩).1],
        if (resultLoop env.UseColor results ⟨0, 0, 0⟩).1.failures > 0 then .exited 1
        else .returned, s3⟩ := by
  simp [runModule, hl, hp, ha, resultLoop_events]

/-- A run over `pre ++ rest` whose `pre` part returns continues with `rest` in the world
that `pre` left. -/
theorem Run_append {σ G P : Type} (env : Env σ G P) (pre rest : List String) (s : σ)
    (hpre : (Run env pre s).outcome = .returned) :
    Run env (pre ++ rest) s =
      ⟨(Run env pre s).trace ++ (Run env rest (Run env pre s).state).trace,
        (Run env rest (Run env pre s).state).outcome,
        (Run env rest (Run env pre s).state).state⟩ := by
  induction pre generalizing s with
  | nil => simp [Run]
  | cons f pre ih =>
    simp only [List.cons_append, Run] at hpre ⊢
    cases hm : (runModule env f s).outcome with
    | exited code => simp [hm] at hpre
    | returned =>
      simp only [hm] at hpre ⊢
      have e := ih _ hpre
      simp only [List.append_eq] at e ⊢
      rw [e]
      simp

/-- A run whose module at the head exits is that module's run. -/
theorem Run_cons_exited {σ G P : Type} (env : Env σ G P) (f : String) (rest : List String)
    (s : σ) (code : Nat) (h : (runModule env f s).outcome = .exited code) :
    Run env (f :: rest) s = runModule env f s := by
  simp only [Run, h]
  rw [← h]

theorem runModule_apply_error {σ G P : Type} (env : Env σ G P) (fname : String)
    (s s1 s2 s3 : σ) (graph : G) (plan : P) (err : String)
    (hl : env.Load fname s = (.ok graph, s1)) (hp : env.Plan graph s1 = (.ok plan, s2))
    (ha : env.Apply graph plan s2 = (.error err, s3)) :
    runModule env fname s =
      ⟨[.logInfo fname, .callLoad fname, .callPlan fname, .callApply fname,
          .logFatal ("[FATAL] " ++ fname ++ ": applying failed: " ++ err ++ "\n")],
        .exited 1, s3⟩ := by
  simp [runModule, hl, hp, ha]

/-- The four ways a module's pass can go. -/
theorem runModule_cases {σ G P : Type} (env : Env σ G P) (fname : String) (s : σ) :
    (∃ msg, (runModule env fname s).outcome = .exited 1 ∧
      Event.logFatal msg ∈ (runModule env fname s).trace) ∨
    (∃ results c, c = (resultLoop env.UseColor results ⟨0, 0, 0⟩).1 ∧
      (runModule env fname s).trace =
        [.logInfo fname, .callLoad fname, .callPlan fname, .callApply fname]
          ++ results.map (Event.printResult env.UseColor)
          ++ [.printSummary (summaryStyle env.UseColor c) c] ∧
      (runModule env fname s).outcome = if c.failures > 0 then .exited 1 else .returned) := by
  rcases hl : env.Load fname s with ⟨err | graph, s1⟩
  · exact Or.inl ⟨"[FATAL] " ++ fname ++ ": could not parse file: " ++ err ++ "\n", by
      simp [runModule_load_error env fname s s1 err hl]⟩
  · rcases hp : env.Plan graph s1 with ⟨err | plan, s2⟩
    · exact Or.inl ⟨"[FATAL] " ++ fname ++ ": planning failed: " ++ err ++ "\n", by
        simp [runModule_plan_error env fname s s1 s2 graph err hl hp]⟩
    · rcases ha : env.Apply graph plan s2 with ⟨err | results, s3⟩
      · exact Or.inl ⟨"[FATAL] " ++ fname ++ ": applying failed: " ++ err ++ "\n", by
          simp [runModule_apply_error env fname s s1 s2 s3 graph plan err hl hp ha]⟩
      · exact Or.inr ⟨results, _, rfl, by
          simp [runModule_applied env fname s s1 s2 s3 graph plan results hl hp ha]⟩

/-- A run ends by returning or by exit code 1. -/
theorem Run_outcome {σ G P : Type} (env : Env σ G P) (args : List String) (s : σ) :
    (Run env args s).outcome = .returned ∨ (Run env args s).outcome = .exited 1 := by
  induction args generalizing s with
  | nil => simp [Run]
  | cons f rest ih =>
    simp only [Run]
    rcases runModule_cases env f s with ⟨msg, ho, _⟩ | ⟨results, c, _, _, ho⟩
    · simp [ho]
    · by_cases hc : c.failures > 0
      · simp [ho, hc]
      · simp only [ho, hc, if_false]
        exact ih _

/-- A run that returns printed no fatal message and no summary with a positive failure
count. -/
theorem Run_returned {σ G P : Type} (env : Env σ G P) (args : List String) (s : σ)
    (h : (Run env args s).outcome = .returned) :
    (∀ e ∈ (Run env args s).trace, e.isFatal = false) ∧
    (∀ st c, Event.printSummary st c ∈ (Run env args s).trace → ¬ c.failures > 0) := by
  induction args generalizing s with
  | nil => simp [Run]
  | cons f rest ih =>
    simp only [Run] at h ⊢
    rcases runModule_cases env f s with ⟨msg, ho, _⟩ | ⟨results, c, _, ht, ho⟩
    · simp [ho] at h
    · by_cases hc : c.failures > 0
      · simp [ho, hc] at h
      · simp only [ho, hc, if_false] at h ⊢
        have ih2 := ih _ h
        constructor
        · intro e he
          rcases List.mem_append.1 he with he | he
          · rw [ht] at he
            simp only [List.mem_append, List.mem_cons, List.mem_map, List.mem_singleton,
              List.not_mem_nil, or_false] at he
            rcases he with (((rfl | rfl | rfl | rfl) | ⟨r, _, rfl⟩) | rfl) <;> rfl
          · exact ih2.1 e he
        · intro st c2 he
          rcases List.mem_append.1 he with he | he
          · rw [ht] at he
            simp only [List.mem_append, List.mem_cons, List.mem_map, List.mem_singleton,
              List.not_mem_nil, or_false] at he
            rcases he with (((he | he | he | he) | ⟨r, _, he⟩) | he)
            all_goals first
              | (rw [(Event.printSummary.inj he).2]; exact hc)
              | cases he
          · exact ih2.2 st c2 he

/-- A run that exits printed a fatal message or a summary with a positive failure count. -/
theorem Run_exited {σ G P : Type} (env : Env σ G P) (args : List String) (s : σ) (code : Nat)
    (h : (Run env args s).outcome = .exited code) :
    (∃ e ∈ (Run env args s).trace, e.isFatal = true) ∨
    (∃ st c, Event.printSummary st c ∈ (Run env args s).trace ∧ c.failures > 0) := by
  induction args generalizing s with
  | nil => simp [Run] at h
  | cons f rest ih =>
    simp only [Run] at h ⊢
    rcases runModule_cases env f s with ⟨msg, ho, hm⟩ | ⟨results, c, _, ht, ho⟩
    · simp only [ho]
      exact Or.inl ⟨_, hm, rfl⟩
    · by_cases hc : c.failures > 0
      · simp only [ho, hc, if_true]
        exact Or.inr ⟨summaryStyle env.UseColor c, c, by rw [ht]; simp, hc⟩
      · simp only [ho, hc, if_false] at h ⊢
        rcases ih _ h with ⟨e, he, hf⟩ | ⟨st, c2, he, hf⟩
        · exact Or.inl ⟨e, List.mem_append_right _ he, hf⟩
        · exact Or.inr ⟨st, c2, List.mem_append_right _ he, hf⟩

/-! ## The apply command: counting, output and exit -/

/-- C1: for a Result collection returned by `exec.Apply` (a Go slice, whose length fits an
`int`), the counting loop ends with `counts.results` the number of Results,
`counts.success` the number of Results whose `Success` is true and `counts.failures` equal
to `counts.results - counts.success`, the number of Results whose `Success` is false; the
last thing the module prints is the summary made of these three numbers. -/
theorem apply_counts_are_derived {σ G P : Type} (env : Env σ G P) (fname : String)
    (s s1 s2 s3 : σ) (graph : G) (plan : P) (results : List Result)
    (hl : env.Load fname s = (.ok graph, s1)) (hp : env.Plan graph s1 = (.ok plan, s2))
    (ha : env.Apply graph plan s2 = (.ok results, s3))
    (hlen : (results.length : Int) < 2 ^ 63) :
    (resultLoop env.UseColor results ⟨0, 0, 0⟩).1.results = (results.length : Int) ∧
    (resultLoop env.UseColor results ⟨0, 0, 0⟩).1.success
      = ((results.countP (fun r => r.Success) : Nat) : Int) ∧
    (resultLoop env.UseColor results ⟨0, 0, 0⟩).1.failures
      = (resultLoop env.UseColor results ⟨0, 0, 0⟩).1.results
        - (resultLoop env.UseColor results ⟨0, 0, 0⟩).1.success ∧
    (resultLoop env.UseColor results ⟨0, 0, 0⟩).1.failures
      = ((results.countP (fun r => !r.Success) : Nat) : Int) ∧
    (∃ st, (runModule env fname s).trace.getLast?
      = some (.printSummary st (resultLoop env.UseColor results ⟨0, 0, 0⟩).1)) ∧
    summaryText (resultLoop env.UseColor results ⟨0, 0, 0⟩).1
      = "\nApply complete. " ++ toString (results.length : Int) ++ " changes, "
        ++ toString ((results.countP (fun r => r.Success) : Nat) : Int) ++ " successful, "
        ++ toString ((results.countP (fun r => !r.Success) : Nat) : Int) ++ " failed\n" := by
  have hc := resultLoop_counts env.UseColor results ⟨0, 0, 0⟩ (by simp) (by simp) (by simp)
    (by simp) (by simpa using hlen)
  have hsum := countP_success_add_failure results
  have hlast : ∃ st, (runModule env fname s).trace.getLast?
      = some (.printSummary st (resultLoop env.UseColor results ⟨0, 0, 0⟩).1) := by
    rw [runModule_applied env fname s s1 s2 s3 graph plan results hl hp ha]
    exact ⟨summaryStyle env.UseColor (resultLoop env.UseColor results ⟨0, 0, 0⟩).1,
      List.getLast?_concat _⟩
  refine ⟨?_, ?_, ?_, ?_, hlast, ?_⟩ <;> rw [hc]
  · simp
  · simp
  · simp only [zero_add]
    omega
  · simp
  · simp [summaryText]

/-- C1 at a concrete input: three results, one of them failed. -/
theorem apply_counts_are_derived_witness :
    (exEnv false).Apply "mixed" "mixed" 0
      = (.ok [exResult "a" true, exResult "b" false, exResult "c" true], 1) ∧
    (resultLoop false [exResult "a" true, exResult "b" false, exResult "c" true]
      ⟨0, 0, 0⟩).1.results = 3 ∧
    (resultLoop false [exResult "a" true, exResult "b" false, exResult "c" true]
      ⟨0, 0, 0⟩).1.success = 2 ∧
    (resultLoop false [exResult "a" true, exResult "b" false, exResult "c" true]
      ⟨0, 0, 0⟩).1.failures = 1 ∧
    summaryText (resultLoop false [exResult "a" true, exResult "b" false, exResult "c" true]
      ⟨0, 0, 0⟩).1 = "\nApply complete. 3 changes, 2 successful, 1 failed\n" := by
  have h := apply_counts_are_derived (exEnv false) "mixed" 0 0 0 1 "mixed" "mixed"
    [exResult "a" true, exResult "b" false, exResult "c" true] rfl rfl rfl (by decide)
  exact ⟨rfl, h.1, h.2.1, h.2.2.2.1, h.2.2.2.2.2⟩

/-- C2: in an invocation of the apply command in which no module ends in a fatal error,
the process exit code is 0 when every summary printed has a failures count of 0, and is 1
when some summary printed has a failures count greater than 0. -/
theorem apply_exit_code {σ G P : Type} (env : Env σ G P) (args : List String) (s : σ)
    (hfatal : ∀ e ∈ (Run env args s).trace, e.isFatal = false) :
    ((∀ st c, Event.printSummary st c ∈ (Run env args s).trace → c.failures = 0) →
      exitCode (Run env args s).outcome = 0) ∧
    ((∃ st c, Event.printSummary st c ∈ (Run env args s).trace ∧ c.failures > 0) →
      exitCode (Run env args s).outcome = 1) := by
  constructor
  · intro hall
    rcases Run_outcome env args s with ho | ho
    · rw [ho]; rfl
    · rcases Run_exited env args s 1 ho with ⟨e, he, hf⟩ | ⟨st, c, he, hf⟩
      · rw [hfatal e he] at hf
        cases hf
      · have := hall st c he
        omega
  · rintro ⟨st, c, he, hf⟩
    rcases Run_outcome env args s with ho | ho
    · exact absurd hf ((Run_returned env args s ho).2 st c he)
    · rw [ho]; rfl

/-- C2 at concrete inputs: two modules without failures give exit code 0; a module with a
failed result gives exit code 1. -/
theorem apply_exit_code_witness :
    (∀ e ∈ (Run (exEnv false) ["ok", "fine"] 0).trace, e.isFatal = false) ∧
    exitCode (Run (exEnv false) ["ok", "fine"] 0).outcome = 0 ∧
    (∀ e ∈ (Run (exEnv true) ["ok", "mixed", "fine"] 0).trace, e.isFatal = false) ∧
    exitCode (Run (exEnv true) ["ok", "mixed", "fine"] 0).outcome = 1 :=
  ⟨by decide,
    (apply_exit_code (exEnv false) ["ok", "fine"] 0 (by decide)).1
      (fun st c h => of_decide_eq_true
        ((by decide : ∀ e ∈ (Run (exEnv false) ["ok", "fine"] 0).trace,
          (match e with
            | .printSummary _ c => decide (c.failures = 0)
            | _ => true) = true) (.printSummary st c) h)),
    by decide,
    (apply_exit_code (exEnv true) ["ok", "mixed", "fine"] 0 (by decide)).2
      ⟨.red, ⟨3, 2, 1⟩, by decide, by decide⟩⟩

/-- C3: when `load.Load` or `exec.Plan` returns an error for a module that the invocation
reaches, the invocation ends there with exit code 1: after the events of the earlier
modules the trace holds only the log line of the module, its load call (and its plan call
when the load went through) and the fatal message, so `exec.Apply` is not called for the
module, no Result and no summary is printed for it, and nothing is done for any later
module. -/
theorem load_or_plan_error_is_fatal {σ G P : Type} (env : Env σ G P)
    (pre post : List String) (f : String) (s : σ)
    (hpre : (Run env pre s).outcome = .returned)
    (herr : (∃ err s1, env.Load f (Run env pre s).state = (.error err, s1)) ∨
      (∃ graph s1 err s2, env.Load f (Run env pre s).state = (.ok graph, s1) ∧
        env.Plan graph s1 = (.error err, s2))) :
    (Run env (pre ++ f :: post) s).outcome = .exited 1 ∧
    exitCode (Run env (pre ++ f :: post) s).outcome ≠ 0 ∧
    ∃ msg, (Run env (pre ++ f :: post) s).trace
        = (Run env pre s).trace ++ [.logInfo f, .callLoad f, .logFatal msg] ∨
      (Run env (pre ++ f :: post) s).trace
        = (Run env pre s).trace ++ [.logInfo f, .callLoad f, .callPlan f, .logFatal msg] := by
  rw [Run_append env pre (f :: post) s hpre]
  rcases herr with ⟨err, s1, hl⟩ | ⟨graph, s1, err, s2, hl, hp⟩
  · have hm := runModule_load_error env f _ s1 err hl
    rw [Run_cons_exited env f post _ 1 (by rw [hm]), hm]
    exact ⟨rfl, by simp [exitCode], _, Or.inl rfl⟩
  · have hm := runModule_plan_error env f _ s1 s2 graph err hl hp
    rw [Run_cons_exited env f post _ 1 (by rw [hm]), hm]
    exact ⟨rfl, by simp [exitCode], _, Or.inr rfl⟩

/-- C3 at a concrete input: the second of three modules does not plan. -/
theorem load_or_plan_error_is_fatal_witness :
    (Run (exEnv false) ["ok"] 0).outcome = .returned ∧
    (exEnv false).Load "noplan" 1 = (.ok "noplan", 1) ∧
    (exEnv false).Plan "noplan" 1 = (.error "cycle", 1) ∧
    (Run (exEnv false) (["ok"] ++ "noplan" :: ["fine"]) 0).outcome = .exited 1 :=
  ⟨by decide, rfl, rfl,
    (load_or_plan_error_is_fatal (exEnv false) ["ok"] ["fine"] "noplan" 0 (by decide)
      (Or.inr ⟨"noplan", 1, "cycle", 1, rfl, rfl⟩)).1⟩

/-- C4, as stated, fails: the module `"bad"` does not load, and the later module `"ok"`,
which loads, plans and applies when run on its own, is neither loaded, planned nor
applied; the invocation ends with exit code 1. -/
theorem load_error_stops_later_modules :
    (exEnv false).Load "bad" 0 = (.error "no such file", 0) ∧
    Event.callApply "ok" ∈ (Run (exEnv false) ["ok"] 0).trace ∧
    Event.callLoad "ok" ∉ (Run (exEnv false) ["bad", "ok"] 0).trace ∧
    Event.callPlan "ok" ∉ (Run (exEnv false) ["bad", "ok"] 0).trace ∧
    Event.callApply "ok" ∉ (Run (exEnv false) ["bad", "ok"] 0).trace ∧
    (Run (exEnv false) ["bad", "ok"] 0).outcome = .exited 1 :=
  ⟨rfl, by decide, by decide, by decide, by decide, by decide⟩

/-- C4, amended: a load error for a module that the invocation reaches ends the whole
invocation with exit code 1, whatever the later modules are: the run is the run of the
earlier modules followed by the log line, the load call and the fatal message
`[FATAL] <module>: could not parse file: <error>`. -/
theorem load_error_ends_invocation {σ G P : Type} (env : Env σ G P)
    (pre post : List String) (f : String) (s s1 : σ) (err : String)
    (hpre : (Run env pre s).outcome = .returned)
    (hl : env.Load f (Run env pre s).state = (.error err, s1)) :
    Run env (pre ++ f :: post) s =
      ⟨(Run env pre s).trace ++
          [.logInfo f, .callLoad f, .logFatal ("[FATAL] " ++ f ++ ": could not parse file: "
            ++ err ++ "\n")],
        .exited 1, s1⟩ := by
  have hm := runModule_load_error env f _ s1 err hl
  rw [Run_append env pre (f :: post) s hpre, Run_cons_exited env f post _ 1 (by rw [hm]), hm]

/-- C4 amended, at a concrete input: the second of three modules does not load. -/
theorem load_error_ends_invocation_witness :
    (Run (exEnv false) ["ok"] 0).outcome = .returned ∧
    (exEnv false).Load "bad" 1 = (.error "no such file", 1) ∧
    Run (exEnv false) (["ok"] ++ "bad" :: ["fine"]) 0 =
      ⟨(Run (exEnv false) ["ok"] 0).trace ++
          [.logInfo "bad", .callLoad "bad",
            .logFatal ("[FATAL] " ++ "bad" ++ ": could not parse file: " ++ "no such file"
              ++ "\n")],
        .exited 1, 1⟩ :=
  ⟨by decide, rfl,
    load_error_ends_invocation (exEnv false) ["ok"] ["fine"] "bad" 0 1 "no such file"
      (by decide) rfl⟩

/-- C9: for a module that the invocation reaches and whose load, plan and apply return no
error, what the apply command does from there is: the log line and the three calls, then
one output entry per Result in the order of the collection (all in the Pretty form when
colour is enabled, all in the plain form otherwise), then one summary, then (unless the
module had failures) the events of the later modules.  A collection of n Results gives n
result entries. -/
theorem apply_prints_each_result_then_summary {σ G P : Type} (env : Env σ G P)
    (pre post : List String) (f : String) (s s1 s2 s3 : σ) (graph : G) (plan : P)
    (results : List Result)
    (hpre : (Run env pre s).outcome = .returned)
    (hl : env.Load f (Run env pre s).state = (.ok graph, s1))
    (hp : env.Plan graph s1 = (.ok plan, s2))
    (ha : env.Apply graph plan s2 = (.ok results, s3)) :
    (Run env (pre ++ f :: post) s).trace =
      (Run env pre s).trace
        ++ [.logInfo f, .callLoad f, .callPlan f, .callApply f]
        ++ results.map (Event.printResult env.UseColor)
        ++ [.printSummary
              (summaryStyle env.UseColor (resultLoop env.UseColor results ⟨0, 0, 0⟩).1)
              (resultLoop env.UseColor results ⟨0, 0, 0⟩).1]
        ++ (if (resultLoop env.UseColor results ⟨0, 0, 0⟩).1.failures > 0 then []
            else (Run env post s3).trace) ∧
    (results.map (Event.printResult env.UseColor)).length = results.length := by
  refine ⟨?_, by simp⟩
  have hm := runModule_applied env f _ s1 s2 s3 graph plan results hl hp ha
  rw [Run_append env pre (f :: post) s hpre]
  simp only [Run]
  by_cases hc : (resultLoop env.UseColor results ⟨0, 0, 0⟩).1.failures > 0
  · simp [hm, hc]
  · simp [hm, hc]

/-- C9 at a concrete input: three results with colour enabled, in a module that follows
another one. -/
theorem apply_prints_each_result_then_summary_witness :
    (exEnv true).Apply "mixed" "mixed" 1
      = (.ok [exResult "a" true, exResult "b" false, exResult "c" true], 2) ∧
    (Run (exEnv true) (["ok"] ++ "mixed" :: ["fine"]) 0).trace =
      (Run (exEnv true) ["ok"] 0).trace
        ++ [.logInfo "mixed", .callLoad "mixed", .callPlan "mixed", .callApply "mixed"]
        ++ [.printResult true (exResult "a" true), .printResult true (exResult "b" false),
            .printResult true (exResult "c" true)]
        ++ [.printSummary .red ⟨3, 2, 1⟩]
        ++ [] :=
  ⟨rfl,
    (apply_prints_each_result_then_summary (exEnv true) ["ok"] ["fine"] "mixed" 0 1 1 2
      "mixed" "mixed" [exResult "a" true, exResult "b" false, exResult "c" true]
      (by decide) rfl rfl rfl).1⟩

/-- C10: in a multi-module invocation, the first module whose run has a failures count
greater than 0 ends the invocation: the run is the run of the earlier modules followed by
the module's own events, the last of which is its summary, the outcome is exit code 1, and
nothing is done for any later module. -/
theorem first_failing_module_ends_invocation {σ G P : Type} (env : Env σ G P)
    (pre post : List String) (f : String) (s s1 s2 s3 : σ) (graph : G) (plan : P)
    (results : List Result)
    (hpre : (Run env pre s).outcome = .returned)
    (hl : env.Load f (Run env pre s).state = (.ok graph, s1))
    (hp : env.Plan graph s1 = (.ok plan, s2))
    (ha : env.Apply graph plan s2 = (.ok results, s3))
    (hfail : (resultLoop env.UseColor results ⟨0, 0, 0⟩).1.failures > 0) :
    Run env (pre ++ f :: post) s =
      ⟨(Run env pre s).trace
          ++ [.logInfo f, .callLoad f, .callPlan f, .callApply f]
          ++ results.map (Event.printResult env.UseColor)
          ++ [.printSummary
                (summaryStyle env.UseColor (resultLoop env.UseColor results ⟨0, 0, 0⟩).1)
                (resultLoop env.UseColor results ⟨0, 0, 0⟩).1],
        .exited 1, s3⟩ := by
  have hm := runModule_applied env f _ s1 s2 s3 graph plan results hl hp ha
  simp only [hfail, if_true] at hm
  rw [Run_append env pre (f :: post) s hpre, Run_cons_exited env f post _ 1 (by rw [hm]), hm]
  simp

/-- C10 at a concrete input: the second of three modules has a failed result. -/
theorem first_failing_module_ends_invocation_witness :
    (Run (exEnv false) ["ok"] 0).outcome = .returned ∧
    (resultLoop false [exResult "a" true, exResult "b" false, exResult "c" true]
      ⟨0, 0, 0⟩).1.failures > 0 ∧
    (Run (exEnv false) (["ok"] ++ "mixed" :: ["fine"]) 0).outcome = .exited 1 ∧
    Event.callLoad "fine" ∉ (Run (exEnv false) (["ok"] ++ "mixed" :: ["fine"]) 0).trace := by
  have h := first_failing_module_ends_invocation (exEnv false) ["ok"] ["fine"] "mixed" 0 1 1 2
    "mixed" "mixed" [exResult "a" true, exResult "b" false, exResult "c" true]
    (by decide) rfl rfl rfl (by decide)
  refine ⟨by decide, by decide, ?_, ?_⟩
  · rw [h]
  · rw [h]
    decide

/-! ## The template resource: Check and Apply -/

theorem FS.put_same (fs : FS) (path : String) (n : Node) : fs.put path n path = n := by
  simp [FS.put]

/-- What `Template.Apply` does on an absent destination. -/
theorem Template.Apply_absent (t : Template) (fs : FS) (h : fs t.Destination = .absent) :
    t.Apply fs = (none, fs.put t.Destination (.file t.Content 0o600 true)) := by
  simp [Template.Apply, h]

/-- What `Template.Apply` does on a writable regular file. -/
theorem Template.Apply_writable (t : Template) (fs : FS) (content : String) (perm : Nat)
    (h : fs t.Destination = .file content perm true) :
    t.Apply fs = (none, fs.put t.Destination (.file t.Content perm true)) := by
  simp [Template.Apply, h]

/-- C5: for a Template whose Destination is an existing regular file, Check returns the
file's content as the current state and no error, and willChange is true exactly when the
content differs from the Template's Content. -/
theorem check_regular_file (quote : String → String) (t : Template) (fs : FS)
    (content : String) (perm : Nat) (writable : Bool)
    (h : fs t.Destination = .file content perm writable) :
    (t.Check quote fs).1 = content ∧ (t.Check quote fs).2.2 = none ∧
    ((t.Check quote fs).2.1 = true ↔ content ≠ t.Content) := by
  simp [Template.Check, h]

/-- C5 at the inputs of the tests: an empty file and the desired content "this is a test"
give `("", true, nil)`; a file already holding "this is a test" gives
`("this is a test", false, nil)`. -/
theorem check_regular_file_witness :
    exFS "/tmp/empty" = .file "" 0o600 true ∧
    Template.Check quotePlain ⟨"/tmp/empty", "this is a test"⟩ exFS = ("", true, none) ∧
    exFS "/tmp/good" = .file "this is a test" 0o777 true ∧
    Template.Check quotePlain ⟨"/tmp/good", "this is a test"⟩ exFS
      = ("this is a test", false, none) := by
  have h1 := check_regular_file quotePlain ⟨"/tmp/empty", "this is a test"⟩ exFS "" 0o600 true
    (by decide)
  have h2 := check_regular_file quotePlain ⟨"/tmp/good", "this is a test"⟩ exFS
    "this is a test" 0o777 true (by decide)
  refine ⟨by decide, ?_, by decide, ?_⟩
  · exact Prod.ext h1.1 (Prod.ext (h1.2.2.2 (by decide)) h1.2.1)
  · exact Prod.ext h2.1 (Prod.ext
      (Bool.eq_false_iff.2 (fun hc => (h2.2.2.1 hc) rfl)) h2.2.1)

/-- C6: for a Template whose Destination is an existing directory, Check returns the
current state `""`, willChange true and the error
`cannot template <destination quoted by %q>, is a directory`; and in no file system does
Check return an error together with willChange false. -/
theorem check_directory (quote : String → String) (t : Template) (fs : FS)
    (h : fs t.Destination = .dir) :
    t.Check quote fs
      = ("", true, some ("cannot template " ++ quote t.Destination ++ ", is a directory")) ∧
    (∀ fs2 : FS, (t.Check quote fs2).2.2 ≠ none → (t.Check quote fs2).2.1 = true) := by
  refine ⟨by simp [Template.Check, h], ?_⟩
  intro fs2
  unfold Template.Check
  cases fs2 t.Destination <;> simp

/-- C6 at the input of the test: the destination is a directory. -/
theorem check_directory_witness :
    exFS "/tmp/dir" = .dir ∧
    Template.Check quotePlain ⟨"/tmp/dir", "this is a test"⟩ exFS
      = ("", true, some "cannot template \"/tmp/dir\", is a directory") :=
  ⟨by decide, (check_directory quotePlain ⟨"/tmp/dir", "this is a test"⟩ exFS (by decide)).1⟩

/-- C7: for a Template whose Destination is absent or a writable regular file, Apply
returns no error and leaves a regular file holding exactly the Template's Content at the
destination; a Check made right after reports the Content as current state, willChange
false and no error; a second Apply in a row returns no error too, and the same Check
result holds after it. -/
theorem apply_converges (quote : String → String) (t : Template) (fs : FS)
    (h : fs t.Destination = .absent ∨
      ∃ content perm, fs t.Destination = .file content perm true) :
    (t.Apply fs).1 = none ∧
    ((t.Apply fs).2 t.Destination).content? = some t.Content ∧
    t.Check quote (t.Apply fs).2 = (t.Content, false, none) ∧
    (t.Apply (t.Apply fs).2).1 = none ∧
    t.Check quote (t.Apply (t.Apply fs).2).2 = (t.Content, false, none) := by
  have key : ∃ perm, t.Apply fs = (none, fs.put t.Destination (.file t.Content perm true)) := by
    rcases h with h | ⟨content, perm, h⟩
    · exact ⟨_, Template.Apply_absent t fs h⟩
    · exact ⟨_, Template.Apply_writable t fs content perm h⟩
  obtain ⟨perm, hk⟩ := key
  have h2 := Template.Apply_writable t (fs.put t.Destination (.file t.Content perm true))
    t.Content perm (FS.put_same _ _ _)
  rw [hk]
  simp only [h2]
  simp [Template.Check, FS.put_same, Node.content?]

/-- C7 at the input of the test (an existing empty file, content "1") and at an absent
destination. -/
theorem apply_converges_witness :
    (Template.Apply ⟨"/tmp/empty", "1"⟩ exFS).1 = none ∧
    Template.Check quotePlain ⟨"/tmp/empty", "1"⟩ (Template.Apply ⟨"/tmp/empty", "1"⟩ exFS).2
      = ("1", false, none) ∧
    exFS "/tmp/new" = .absent ∧
    Template.Check quotePlain ⟨"/tmp/new", "this is a test"⟩
      (Template.Apply ⟨"/tmp/new", "this is a test"⟩ exFS).2
      = ("this is a test", false, none) := by
  have h1 := apply_converges quotePlain ⟨"/tmp/empty", "1"⟩ exFS
    (Or.inr ⟨"", 0o600, by decide⟩)
  have h2 := apply_converges quotePlain ⟨"/tmp/new", "this is a test"⟩ exFS
    (Or.inl (by decide))
  exact ⟨h1.1, h1.2.2.1, by decide, h2.2.2.1⟩

/-- C8: after a successful Apply (the Template carries no permission setting), the
destination is a regular file whose permission bits are the bits the file had before Apply
when it existed, and 0600 when Apply created it. -/
theorem apply_permission_bits (t : Template) (fs : FS) (hok : (t.Apply fs).1 = none) :
    (∀ content perm writable, fs t.Destination = .file content perm writable →
      ((t.Apply fs).2 t.Destination).perm? = some perm) ∧
    (fs t.Destination = .absent → ((t.Apply fs).2 t.Destination).perm? = some 0o600) := by
  unfold Template.Apply at hok ⊢
  constructor
  · intro content perm writable h
    rw [h] at hok ⊢
    cases writable
    · simp at hok
    · simp [FS.put_same, Node.perm?]
  · intro h
    rw [h]
    simp [FS.put_same, Node.perm?]

/-- C8 at the inputs of the tests: a file at 0777 whose content differs stays at 0777, and
a created file is at 0600. -/
theorem apply_permission_bits_witness :
    (exFS "/tmp/good").perm? = some 0o777 ∧
    ((Template.Apply ⟨"/tmp/good", "1"⟩ exFS).2 "/tmp/good").perm? = some 0o777 ∧
    exFS "/tmp/new" = .absent ∧
    ((Template.Apply ⟨"/tmp/new", "1"⟩ exFS).2 "/tmp/new").perm? = some 0o600 :=
  ⟨by decide,
    (apply_permission_bits ⟨"/tmp/good", "1"⟩ exFS (by decide)).1 "this is a test" 0o777 true
      (by decide),
    by decide,
    (apply_permission_bits ⟨"/tmp/new", "1"⟩ exFS (by decide)).2 (by decide)⟩

end Converge
